import Mathlib

/-!
# Verification of the Interview-GenAI metacognitive scorers and pattern classifiers

Shallow embedding of `backend/src/ml/aligned_dimension_scorer.py` and
`backend/src/ml/convert_conversation_to_metrics.py`: the twelve heuristic
dimension scorers, the two `classify_pattern` rule chains, and the message
extraction / conversation analysis helpers, together with theorems settling
the specification claims about them.

Python numbers are embedded as `Nat` (counts, lengths) and `ℚ` (averages,
confidences: Python float literals such as `0.9` are the exact rationals the
source writes). Python `re.search` is embedded by an executable matcher for
the exact fragment of regular expressions the source uses: literals, `.*`,
`\d`, `\d+`, character classes, and top-level alternation.
-/

set_option maxRecDepth 10000

/-- Tokens of the regular-expression fragment used by the Python source:
a literal string, a single digit `\d`, one-or-more digits `\d+`,
an arbitrary gap `.*`, and a character class `[...]`. -/
inductive RTok where
  | lit : String → RTok
  | digit : RTok
  | digits : RTok
  | anyStar : RTok
  | cls : List Char → RTok
deriving DecidableEq

/-- One alternative of a pattern: a concatenation of tokens. -/
abbrev RAlt := List RTok

/-- A pattern: a top-level alternation of concatenations (`a|b|c`). -/
abbrev RPat := List RAlt

/-- Embedding of Python `str.lower()` (ASCII case mapping, the only cased
characters occurring in this source), as an executable `String` function. -/
def strLower (s : String) : String :=
  String.mk (s.toList.map Char.toLower)

/-- Lower-case the literal tokens of an alternative (used to embed
`re.IGNORECASE`, whose patterns here contain no cased character classes). -/
def RTok.lower : RTok → RTok
  | .lit s => .lit (strLower s)
  | t => t

/-- Does `f` accept some suffix of the character list (used for `.*`)? -/
def matchStarAux (f : List Char → Bool) : List Char → Bool
  | [] => f []
  | c :: cs => f (c :: cs) || matchStarAux f cs

/-- After one or more leading digits, does `f` accept the rest (used for `\d+`)? -/
def matchDigitsAux (f : List Char → Bool) : List Char → Bool
  | [] => false
  | c :: cs => c.isDigit && (f cs || matchDigitsAux f cs)

/-- Does the token sequence match a prefix of `cs` (the rest of the string
may remain, as with Python `re.search`)? -/
def matchHere : List RTok → List Char → Bool
  | [], _ => true
  | .lit s :: ts, cs =>
      s.toList.isPrefixOf cs && matchHere ts (cs.drop s.toList.length)
  | .digit :: ts, cs =>
      match cs with
      | [] => false
      | c :: cs' => c.isDigit && matchHere ts cs'
  | .digits :: ts, cs => matchDigitsAux (matchHere ts) cs
  | .anyStar :: ts, cs => matchStarAux (matchHere ts) cs
  | .cls l :: ts, cs =>
      match cs with
      | [] => false
      | c :: cs' => l.contains c && matchHere ts cs'

/-- Does the token sequence match starting at some position of `cs`?
This is the embedding of `re.search` for one alternative. -/
def searchFrom (ts : List RTok) : List Char → Bool
  | [] => matchHere ts []
  | c :: cs => matchHere ts (c :: cs) || searchFrom ts cs

/-- Embedding of `bool(re.search(pat, s))` (with `ic = true` for
`re.IGNORECASE`): some alternative of the pattern matches somewhere. -/
def reSearch (pat : RPat) (ic : Bool) (s : String) : Bool :=
  let cs := (if ic then strLower s else s).toList
  pat.any (fun alt => searchFrom (if ic then alt.map RTok.lower else alt) cs)

/-- Is `l₁` a contiguous infix of `l₂` (Python substring containment `in`)? -/
def listInfix (l₁ l₂ : List Char) : Bool :=
  match l₂ with
  | [] => l₁.isEmpty
  | _ :: t => l₁.isPrefixOf l₂ || listInfix l₁ t

/-- Embedding of Python `kw.lower() in m.lower()`. -/
def containsCI (kw m : String) : Bool :=
  listInfix (strLower kw).toList (strLower m).toList

/-- Number of keywords of `kws` contained (case-insensitively) in `m`. -/
def kwHits (kws : List String) (m : String) : ℕ :=
  (kws.filter (fun kw => containsCI kw m)).length

/-- Embedding of `sum(1 for m in msgs for kw in kws if kw.lower() in m.lower())`. -/
def countKW (kws : List String) (msgs : List String) : ℕ :=
  (msgs.map (kwHits kws)).sum

/-- Number of patterns of `pats` matching in `m`. -/
def patHits (pats : List RPat) (ic : Bool) (m : String) : ℕ :=
  (pats.filter (fun p => reSearch p ic m)).length

/-- Embedding of `sum(1 for m in msgs for p in pats if re.search(p, m, flags))`. -/
def countPat (pats : List RPat) (ic : Bool) (msgs : List String) : ℕ :=
  (msgs.map (patHits pats ic)).sum

example : containsCI "Need" "we need this" = true := by decide
example : containsCI "目标" "我的目标是" = true := by decide
example : reSearch [[.lit "首先", .anyStar, .lit "然后"]] false "首先做事然后检查" = true := by decide
example : reSearch [[.lit "step ", .digit]] true "Step 3 is done" = true := by decide
example : reSearch [[.digits, .lit "/", .digits]] false "done 12/15 now" = true := by decide
example : reSearch [[.digits, .lit "%"]] false "about 30% done" = true := by decide
example : reSearch [[.lit "first", .anyStar, .lit "then"]] false "first x" = false := by decide

/-- Record of one transcript row, as loaded from the CSV: a sender tag and a
free text (both possibly empty). -/
structure Msg where
  sender : String
  text : String
deriving DecidableEq

/-- Characters of `s` with leading and trailing whitespace removed
(embedding of Python `str.strip()`). -/
def trimChars (s : String) : List Char :=
  ((s.toList.dropWhile Char.isWhitespace).reverse.dropWhile Char.isWhitespace).reverse

/-- Vector of the 12 dimension scores handed to `classify_pattern`
(dict keys P1..P4, M1..M3, E1..E3, R1..R2 in the source). -/
structure ScoreVec where
  P1 : ℚ
  P2 : ℚ
  P3 : ℚ
  P4 : ℚ
  M1 : ℚ
  M2 : ℚ
  M3 : ℚ
  E1 : ℚ
  E2 : ℚ
  E3 : ℚ
  R1 : ℚ
  R2 : ℚ
deriving DecidableEq

/-- Planning average `(P1 + P2 + P3 + P4) / 4`. -/
def p_avg (s : ScoreVec) : ℚ := (s.P1 + s.P2 + s.P3 + s.P4) / 4

/-- Monitoring average `(M1 + M2 + M3) / 3`. -/
def m_avg (s : ScoreVec) : ℚ := (s.M1 + s.M2 + s.M3) / 3

/-- Evaluation average `(E1 + E2 + E3) / 3`. -/
def e_avg (s : ScoreVec) : ℚ := (s.E1 + s.E2 + s.E3) / 3

/-- Regulation average `(R1 + R2) / 2`. -/
def r_avg (s : ScoreVec) : ℚ := (s.R1 + s.R2) / 2

/-- Sum of all 12 scores, `sum(scores.values())`. -/
def totalScore (s : ScoreVec) : ℚ :=
  s.P1 + s.P2 + s.P3 + s.P4 + s.M1 + s.M2 + s.M3 + s.E1 + s.E2 + s.E3 + s.R1 + s.R2

namespace AlignedDimensionScorer

/-- Keyword list of `score_p1_task_understanding`. -/
def understanding_keywords : List String :=
  ["需要", "目标", "要求", "约束", "条件", "背景", "受众", "requirement",
   "need", "goal", "want to", "should", "constraint", "audience"]

/-- Regex list `detailed_patterns` of `score_p1_task_understanding`. -/
def detailed_patterns : List RPat :=
  [[[.lit "首先", .anyStar, .lit "然后"]],
   [[.lit "第一", .anyStar, .lit "第二"]],
   [[.lit "包含", .anyStar, .lit "需要"]],
   [[.lit "面向", .anyStar, .lit "读者"]],
   [[.lit "first", .anyStar, .lit "then"]],
   [[.lit "step ", .digit]],
   [[.lit "1)", .anyStar, .lit "2)"]],
   [[.lit "目的是"]]]

/-- Keyword list of `score_p2_goal_setting`. -/
def goal_keywords : List String :=
  ["目标", "希望", "想要", "达到", "实现", "完成", "goal", "want", "achieve",
   "need to", "should be", "能够", "必须"]

/-- Regex list `measurable_patterns` of `score_p2_goal_setting`. -/
def measurable_patterns : List RPat :=
  [[[.digits, .lit "%"]],
   [[.digits, .lit "分钟"]],
   [[.digits, .lit "字"]],
   [[.digits, .lit " words"]],
   [[.lit "<", .digits]],
   [[.lit ">", .digits]],
   [[.digits, .lit "ms"]],
   [[.lit "准确率"]],
   [[.lit "accuracy"]],
   [[.lit "deadline"]],
   [[.lit "截止"]]]

/-- Keyword list of `score_p3_strategy_planning`. -/
def plan_keywords : List String :=
  ["计划", "步骤", "先", "然后", "接着", "最后", "策略", "方法",
   "plan", "step", "first", "then", "next", "finally", "strategy", "approach"]

/-- Regex list `step_patterns` of `score_p3_strategy_planning`. -/
def step_patterns : List RPat :=
  [[[.lit "第", .cls ['一', '二', '三', '四', '五']]],
   [[.lit "step ", .digit]],
   [[.digit, .lit ")"]],
   [[.lit "首先", .anyStar, .lit "其次"]],
   [[.lit "如果", .anyStar, .lit "就"]],
   [[.lit "if", .anyStar, .lit "then"]],
   [[.lit "分", .anyStar, .lit "步"]]]

/-- Regex list `alternative_patterns` of `score_p3_strategy_planning`. -/
def alternative_patterns : List RPat :=
  [[[.lit "或者"]],
   [[.lit "另一个方法"]],
   [[.lit "也可以"]],
   [[.lit "alternatively"]],
   [[.lit "another way"]],
   [[.lit "如果不行"]],
   [[.lit "备选"]]]

/-- Keyword list `role_keywords` of `score_p4_role_definition`. -/
def role_keywords : List String :=
  ["你是", "作为", "你的角色", "扮演", "假设你是", "you are", "act as",
   "pretend", "your role", "as a", "当作"]

/-- Keyword list `boundary_keywords` of `score_p4_role_definition`. -/
def boundary_keywords : List String :=
  ["你负责", "我负责", "不要", "只给", "请不要", "边界", "分工",
   "you handle", "i will", "don\x27t", "only", "your job", "my job"]

/-- Regex list `role_patterns` of `score_p4_role_definition`. -/
def role_patterns : List RPat :=
  [[[.lit "你是一个", .anyStar, .lit "专家"]],
   [[.lit "作为", .anyStar, .lit "角色"]],
   [[.lit "you are a", .anyStar, .lit "expert"]],
   [[.lit "act as a"]],
   [[.lit "假设你是", .anyStar, .lit "师"]]]

/-- Keyword list of `score_m1_process_tracking`. -/
def progress_keywords : List String :=
  ["进度", "完成", "接下来", "目前", "阶段", "继续", "下一步",
   "progress", "done", "next", "currently", "stage", "continue"]

/-- Regex list `tracking_patterns` of `score_m1_process_tracking`. -/
def tracking_patterns : List RPat :=
  [[[.digits, .lit "/", .digits]],
   [[.lit "第", .cls ['一', '二', '三'], .lit "部分"]],
   [[.lit "完成了", .anyStar, .lit "继续"]],
   [[.lit "step ", .digit]],
   [[.lit "回顾"]],
   [[.lit "总结一下"]],
   [[.lit "review"]],
   [[.lit "so far"]]]

/-- Keyword list `check_keywords` of `score_m2_quality_checking`. -/
def check_keywords : List String :=
  ["不对", "错了", "有问题", "修改", "改一下", "检查", "核实",
   "wrong", "error", "mistake", "fix", "change", "check", "verify", "incorrect"]

/-- Regex list `quality_patterns` of `score_m2_quality_checking`. -/
def quality_patterns : List RPat :=
  [[[.lit "这里", .anyStar, .lit "错"]],
   [[.lit "请修正"]],
   [[.lit "应该是"]],
   [[.lit "不是", .anyStar, .lit "而是"]],
   [[.lit "this is wrong"]],
   [[.lit "should be"]],
   [[.lit "please fix"]],
   [[.lit "逐条检查"]]]

/-- Keyword list `trust_keywords` of `score_m3_trust_calibration`. -/
def trust_keywords : List String :=
  ["信任", "相信", "不确定", "怀疑", "验证", "确认", "可靠",
   "trust", "believe", "unsure", "doubt", "verify", "confirm", "reliable"]

/-- Regex list `trust_patterns` of `score_m3_trust_calibration`. -/
def trust_patterns : List RPat :=
  [[[.lit "这个", .anyStar, .lit "信任"]],
   [[.lit "这方面", .anyStar, .lit "不确定"]],
   [[.lit "需要", .anyStar, .lit "验证"]],
   [[.lit "我再查一下"]],
   [[.lit "这个领域"]],
   [[.lit "你擅长"]],
   [[.lit "你的知识"]],
   [[.lit "i\x27ll verify"]],
   [[.lit "double check"]]]

/-- Regex list `skeptic_patterns` of `score_m3_trust_calibration`. -/
def skeptic_patterns : List RPat :=
  [[[.lit "真的吗"]],
   [[.lit "确定吗"]],
   [[.lit "有把握吗"]],
   [[.lit "are you sure"]],
   [[.lit "is this correct"]],
   [[.lit "让我确认"]],
   [[.lit "我查一下"]]]

/-- Keyword list `eval_keywords` of `score_e1_quality_evaluation`. -/
def eval_keywords : List String :=
  ["好", "不好", "可以", "不行", "满意", "质量", "评价", "分数",
   "good", "bad", "okay", "satisfied", "quality", "rate", "score"]

/-- Regex list `reason_patterns` of `score_e1_quality_evaluation`. -/
def reason_patterns : List RPat :=
  [[[.lit "因为", .anyStar, .lit "所以"]],
   [[.lit "这个", .anyStar, .lit "好", .anyStar, .lit "因为"]],
   [[.lit "但是", .anyStar, .lit "可以改进"]],
   [[.lit "优点", .anyStar, .lit "缺点"]],
   [[.lit "because"]],
   [[.lit "but", .anyStar, .lit "could be better"]],
   [[.lit "pros", .anyStar, .lit "cons"]],
   [[.lit "不错", .anyStar, .lit "但"]]]

/-- Regex list `multi_patterns` of `score_e1_quality_evaluation`. -/
def multi_patterns : List RPat :=
  [[[.digits, .lit "/", .digits]],
   [[.lit "准确性", .anyStar, .lit "完整性"]],
   [[.lit "从", .anyStar, .lit "角度"]],
   [[.lit "第一", .anyStar, .lit "第二"]],
   [[.lit "accuracy", .anyStar, .lit "completeness"]],
   [[.lit "in terms of"]]]

/-- Keyword list `risk_keywords` of `score_e2_risk_assessment`. -/
def risk_keywords : List String :=
  ["风险", "问题", "危险", "后果", "安全", "万一", "如果出错",
   "risk", "problem", "danger", "consequence", "safe", "what if", "if wrong"]

/-- Regex list `risk_patterns` of `score_e2_risk_assessment`. -/
def risk_patterns : List RPat :=
  [[[.lit "如果", .anyStar, .lit "会"]],
   [[.lit "万一", .anyStar, .lit "怎么"]],
   [[.lit "可能", .anyStar, .lit "导致"]],
   [[.lit "注意", .anyStar, .lit "安全"]],
   [[.lit "if", .anyStar, .lit "might"]],
   [[.lit "could", .anyStar, .lit "cause"]],
   [[.lit "be careful"]],
   [[.lit "潜在"]]]

/-- Keyword list `cap_keywords` of `score_e3_capability_judgment`. -/
def cap_keywords : List String :=
  ["你能", "你擅长", "你的局限", "我自己来", "你可能不知道", "知识截止",
   "can you", "you are good at", "limitation", "i\x27ll do", "you might not know"]

/-- Regex list `boundary_patterns` of `score_e3_capability_judgment`. -/
def boundary_patterns : List RPat :=
  [[[.lit "这个", .anyStar, .lit "超出"]],
   [[.lit "你的知识", .anyStar, .lit "到"]],
   [[.lit "最新", .anyStar, .lit "可能不知道"]],
   [[.lit "这部分", .anyStar, .lit "我来"]],
   [[.lit "beyond your"]],
   [[.lit "knowledge cutoff"]],
   [[.lit "this part", .anyStar, .lit "myself"]]]

/-- Keyword list `adj_keywords` of `score_r1_strategy_adjustment`. -/
def adj_keywords : List String :=
  ["换个方式", "重新", "调整", "改变", "尝试", "另一个方法",
   "try again", "different", "adjust", "change", "another way"]

/-- Regex list `active_patterns` of `score_r1_strategy_adjustment`. -/
def active_patterns : List RPat :=
  [[[.lit "上次", .anyStar, .lit "问题"]],
   [[.lit "这次我"]],
   [[.lit "换个角度"]],
   [[.lit "之前", .anyStar, .lit "不好"]],
   [[.lit "last time"]],
   [[.lit "this time"]],
   [[.lit "different approach"]],
   [[.lit "前面", .anyStar, .lit "现在"]]]

/-- Keyword list `tool_keywords` of `score_r2_tool_switching`. -/
def tool_keywords : List String :=
  ["google", "bing", "搜索", "查一下", "其他工具", "测试", "运行代码",
   "search", "look up", "other tool", "test", "run", "verify externally"]

/-- Regex list `tool_patterns` of `score_r2_tool_switching`; the fifth
source pattern is the alternation `claude|chatgpt|gpt|文心`. -/
def tool_patterns : List RPat :=
  [[[.lit "我", .anyStar, .lit "google"]],
   [[.lit "搜索", .anyStar, .lit "验证"]],
   [[.lit "运行", .anyStar, .lit "测试"]],
   [[.lit "其他", .anyStar, .lit "AI"]],
   [[.lit "claude"], [.lit "chatgpt"], [.lit "gpt"], [.lit "文心"]],
   [[.lit "我去", .anyStar, .lit "查"]],
   [[.lit "i\x27ll", .anyStar, .lit "search"]]]

/-- Average character length of the messages, `sum(len(m) ...) / len(user_msgs)`. -/
def avg_len (user_msgs : List String) : ℚ :=
  ((user_msgs.map String.length).sum : ℚ) / (user_msgs.length : ℚ)

/-- P1: Task Understanding and Analysis. -/
def score_p1_task_understanding (user_msgs : List String) : ℕ :=
  if user_msgs = [] then 0
  else if 150 < avg_len user_msgs ∧
          (5 < countKW understanding_keywords user_msgs ∨
           2 < countPat detailed_patterns true user_msgs) then 3
  else if 80 < avg_len user_msgs ∧
          (2 < countKW understanding_keywords user_msgs ∨
           0 < countPat detailed_patterns true user_msgs) then 2
  else if 30 < avg_len user_msgs then 1
  else 0

/-- P2: Goal Setting. -/
def score_p2_goal_setting (user_msgs : List String) : ℕ :=
  if user_msgs = [] then 0
  else if 1 < countPat measurable_patterns false user_msgs ∧
          2 < countKW goal_keywords user_msgs then 3
  else if 0 < countPat measurable_patterns false user_msgs ∨
          3 < countKW goal_keywords user_msgs then 2
  else if 0 < countKW goal_keywords user_msgs then 1
  else 0

/-- P3: Strategy Selection and Planning. -/
def score_p3_strategy_planning (user_msgs : List String) : ℕ :=
  if user_msgs = [] then 0
  else if 2 < countPat step_patterns false user_msgs ∧
          0 < countPat alternative_patterns true user_msgs then 3
  else if 1 < countPat step_patterns false user_msgs ∨
          3 < countKW plan_keywords user_msgs then 2
  else if 0 < countKW plan_keywords user_msgs then 1
  else 0

/-- P4: Role Definition. -/
def score_p4_role_definition (user_msgs : List String) : ℕ :=
  if user_msgs = [] then 0
  else if 0 < countPat role_patterns true user_msgs ∧
          0 < countKW boundary_keywords user_msgs then 3
  else if 0 < countPat role_patterns true user_msgs ∨
          2 < countKW role_keywords user_msgs then 2
  else if 0 < countKW role_keywords user_msgs ∨
          0 < countKW boundary_keywords user_msgs then 1
  else 0

/-- M1: Process Tracking. -/
def score_m1_process_tracking (user_msgs : List String) : ℕ :=
  if user_msgs = [] then 0
  else if 2 < countPat tracking_patterns false user_msgs ∨
          (20 < user_msgs.length ∧ 3 < countKW progress_keywords user_msgs) then 3
  else if 10 < user_msgs.length ∧ 1 < countKW progress_keywords user_msgs then 2
  else if 3 < user_msgs.length then 1
  else 0

/-- M2: Quality Checking. -/
def score_m2_quality_checking (user_msgs : List String) : ℕ :=
  if user_msgs = [] then 0
  else if 2 < countPat quality_patterns true user_msgs ∨
          5 < countKW check_keywords user_msgs then 3
  else if 0 < countPat quality_patterns true user_msgs ∨
          2 < countKW check_keywords user_msgs then 2
  else if 0 < countKW check_keywords user_msgs then 1
  else 0

/-- M3: Trust Calibration. -/
def score_m3_trust_calibration (user_msgs : List String) : ℕ :=
  if user_msgs = [] then 0
  else if 1 < countPat trust_patterns true user_msgs ∧
          0 < countPat skeptic_patterns true user_msgs then 3
  else if 3 < countKW trust_keywords user_msgs + countPat trust_patterns true user_msgs
            + countPat skeptic_patterns true user_msgs then 2
  else if 0 < countKW trust_keywords user_msgs + countPat trust_patterns true user_msgs
            + countPat skeptic_patterns true user_msgs then 1
  else 0

/-- E1: Quality Evaluation. -/
def score_e1_quality_evaluation (user_msgs : List String) : ℕ :=
  if user_msgs = [] then 0
  else if 0 < countPat multi_patterns false user_msgs ∨
          (1 < countPat reason_patterns true user_msgs ∧
           2 < countKW eval_keywords user_msgs) then 3
  else if 0 < countPat reason_patterns true user_msgs then 2
  else if 0 < countKW eval_keywords user_msgs then 1
  else 0

/-- E2: Risk Assessment. -/
def score_e2_risk_assessment (user_msgs : List String) : ℕ :=
  if user_msgs = [] then 0
  else if 2 < countPat risk_patterns true user_msgs ∨
          (3 < countKW risk_keywords user_msgs ∧
           0 < countPat risk_patterns true user_msgs) then 3
  else if 0 < countPat risk_patterns true user_msgs ∨
          1 < countKW risk_keywords user_msgs then 2
  else if 0 < countKW risk_keywords user_msgs then 1
  else 0

/-- E3: Capability Judgment. -/
def score_e3_capability_judgment (user_msgs : List String) : ℕ :=
  if user_msgs = [] then 0
  else if 1 < countPat boundary_patterns true user_msgs ∨
          (2 < countKW cap_keywords user_msgs ∧
           0 < countPat boundary_patterns true user_msgs) then 3
  else if 0 < countPat boundary_patterns true user_msgs ∨
          1 < countKW cap_keywords user_msgs then 2
  else if 0 < countKW cap_keywords user_msgs then 1
  else 0

/-- R1: Strategy Adjustment. -/
def score_r1_strategy_adjustment (user_msgs : List String) : ℕ :=
  if user_msgs = [] then 0
  else if 1 < countPat active_patterns true user_msgs ∨
          (2 < countKW adj_keywords user_msgs ∧
           0 < countPat active_patterns true user_msgs) then 3
  else if 0 < countPat active_patterns true user_msgs ∨
          1 < countKW adj_keywords user_msgs then 2
  else if 0 < countKW adj_keywords user_msgs then 1
  else 0

/-- R2: Tool Switching. -/
def score_r2_tool_switching (user_msgs : List String) : ℕ :=
  if user_msgs = [] then 0
  else if 2 < countPat tool_patterns true user_msgs ∨
          (3 < countKW tool_keywords user_msgs ∧
           0 < countPat tool_patterns true user_msgs) then 3
  else if 0 < countPat tool_patterns true user_msgs ∨
          1 < countKW tool_keywords user_msgs then 2
  else if 0 < countKW tool_keywords user_msgs then 1
  else 0

/-- Rule chain of `classify_pattern` in `aligned_dimension_scorer.py`
(lines 517-546): first satisfied rule wins, `C` is the default. -/
def classify_pattern (scores : ScoreVec) : String × ℚ :=
  if totalScore scores ≤ 15 ∧ scores.E1 ≤ 1 then ("F", 0.9)
  else if 2.5 ≤ p_avg scores ∧ 2 ≤ e_avg scores then ("A", 0.85)
  else if 2.5 ≤ e_avg scores then ("D", 0.85)
  else if 2.5 ≤ r_avg scores ∧ 2 ≤ p_avg scores ∧ 2 ≤ e_avg scores then ("E", 0.8)
  else if 2 ≤ m_avg scores then ("B", 0.8)
  else ("C", 0.7)

/-- Result record of `score_user`. -/
structure UserResult where
  scores : ScoreVec
  pattern : String
  confidence : ℚ
  total_score : ℚ
deriving DecidableEq

/-- Vector of the twelve scorer outputs on `user_msgs`. -/
def scoresOf (user_msgs : List String) : ScoreVec :=
  { P1 := score_p1_task_understanding user_msgs
    P2 := score_p2_goal_setting user_msgs
    P3 := score_p3_strategy_planning user_msgs
    P4 := score_p4_role_definition user_msgs
    M1 := score_m1_process_tracking user_msgs
    M2 := score_m2_quality_checking user_msgs
    M3 := score_m3_trust_calibration user_msgs
    E1 := score_e1_quality_evaluation user_msgs
    E2 := score_e2_risk_assessment user_msgs
    E3 := score_e3_capability_judgment user_msgs
    R1 := score_r1_strategy_adjustment user_msgs
    R2 := score_r2_tool_switching user_msgs }

/-- Embedding of `score_user`: scores all 12 aligned dimensions and
classifies the resulting vector. -/
def score_user (user_msgs : List String) : UserResult :=
  { scores := scoresOf user_msgs
    pattern := (classify_pattern (scoresOf user_msgs)).1
    confidence := (classify_pattern (scoresOf user_msgs)).2
    total_score := totalScore (scoresOf user_msgs) }

/-- Embedding of `get_user_messages`: the list comprehension
`[m[\x27text\x27] for m in messages if m[\x27sender\x27] == \x27user\x27 and m[\x27text\x27].strip()]`. -/
def get_user_messages (messages : List Msg) : List String :=
  messages.filterMap (fun m =>
    if m.sender == "user" && !(trimChars m.text).isEmpty then some m.text else none)

end AlignedDimensionScorer

namespace ConvertConversationToMetrics

/-- Keyword list `VERIFICATION_KEYWORDS`. -/
def VERIFICATION_KEYWORDS : List String :=
  ["is this correct", "can you check", "verify", "are you sure",
   "double check", "confirm", "is that right", "make sure"]

/-- Keyword list `QUESTION_KEYWORDS`. -/
def QUESTION_KEYWORDS : List String :=
  ["why", "how", "what if", "explain", "can you clarify",
   "i don\x27t understand", "could you elaborate", "what does"]

/-- Keyword list `MODIFICATION_KEYWORDS`. -/
def MODIFICATION_KEYWORDS : List String :=
  ["change", "modify", "adjust", "update", "revise", "instead",
   "alternatively", "try again", "different", "another way"]

/-- Keyword list `REFLECTION_KEYWORDS`. -/
def REFLECTION_KEYWORDS : List String :=
  ["i think", "i understand", "so basically", "in other words",
   "let me try", "i see", "that makes sense", "i realized"]

/-- Keyword list `CRITICAL_KEYWORDS`. -/
def CRITICAL_KEYWORDS : List String :=
  ["but", "however", "actually", "wait", "hold on", "not quite",
   "i disagree", "that\x27s not", "incorrect"]

/-- The user-sent records of the conversation. -/
def user_messages (messages : List Msg) : List Msg :=
  messages.filter (fun m => m.sender == "user")

/-- The assistant-sent records of the conversation (computed and unused in
the source, kept for fidelity). -/
def ai_messages (messages : List Msg) : List Msg :=
  messages.filter (fun m => m.sender == "assistant")

/-- Embedding of `\x27 \x27.join(m[\x27text\x27].lower() for m in user_messages)`. -/
def all_user_text (messages : List Msg) : String :=
  String.intercalate " " ((user_messages messages).map (fun m => strLower m.text))

/-- Embedding of `sum(1 for kw in kws if kw in text)`: the keywords here are
matched verbatim against the already-lowercased joined text. -/
def kwInTextCount (kws : List String) (t : String) : ℕ :=
  (kws.filter (fun kw => listInfix kw.toList t.toList)).length

/-- Count of `CRITICAL_KEYWORDS` occurring in the joined user text. -/
def critical_count (messages : List Msg) : ℕ :=
  kwInTextCount CRITICAL_KEYWORDS (all_user_text messages)

/-- Count of `VERIFICATION_KEYWORDS` occurring in the joined user text. -/
def verification_count (messages : List Msg) : ℕ :=
  kwInTextCount VERIFICATION_KEYWORDS (all_user_text messages)

/-- Count of `QUESTION_KEYWORDS` occurring in the joined user text. -/
def question_count (messages : List Msg) : ℕ :=
  kwInTextCount QUESTION_KEYWORDS (all_user_text messages)

/-- Count of `MODIFICATION_KEYWORDS` occurring in the joined user text. -/
def modification_count (messages : List Msg) : ℕ :=
  kwInTextCount MODIFICATION_KEYWORDS (all_user_text messages)

/-- Count of `REFLECTION_KEYWORDS` occurring in the joined user text. -/
def reflection_count (messages : List Msg) : ℕ :=
  kwInTextCount REFLECTION_KEYWORDS (all_user_text messages)

/-- Average user-message length `sum(len(m[\x27text\x27]) ...) / len(user_messages)`. -/
def avg_len (messages : List Msg) : ℚ :=
  (((user_messages messages).map (fun m => m.text.length)).sum : ℚ)
    / ((user_messages messages).length : ℚ)

/-- Metrics record `p1..r2` returned by `analyze_conversation`. -/
structure Metrics where
  p1 : ℕ
  p2 : ℕ
  p3 : ℕ
  p4 : ℕ
  m1 : ℕ
  m2 : ℕ
  m3 : ℕ
  e1 : ℕ
  e2 : ℕ
  e3 : ℕ
  r1 : ℕ
  r2 : ℕ
deriving DecidableEq

/-- Final clamping loop `metrics[key] = max(0, min(3, metrics[key]))`. -/
def clamp03 (v : ℕ) : ℕ := max 0 (min 3 v)

/-- Value the E2 branch stores under key `e2`, if any: the `critical_count > 2`
branch of the source writes to `e3` instead, so it leaves `e2` unset. -/
def e2_assigned (messages : List Msg) : Option ℕ :=
  if critical_count messages = 0 then some 1
  else if critical_count messages ≤ 2 then some 2
  else none

/-- Value the E2 branch stores under key `e3` (the misdirected write in the
`critical_count > 2` case); it is overwritten by the later E3 step. -/
def e3_assigned_by_e2_branch (messages : List Msg) : Option ℕ :=
  if critical_count messages = 0 then none
  else if critical_count messages ≤ 2 then none
  else some 3

/-- Regex `\d+|example|specific|for instance` for `has_specifics`. -/
def specifics_pattern : RPat :=
  [[.digits], [.lit "example"], [.lit "specific"], [.lit "for instance"]]

/-- Regex `first|then|also|and also|additionally|1\.|2\.` for `multi_part`. -/
def multi_part_pattern : RPat :=
  [[.lit "first"], [.lit "then"], [.lit "also"], [.lit "and also"],
   [.lit "additionally"], [.lit "1."], [.lit "2."]]

/-- Regex `can you|could you|please|make it|show me` for `customization`. -/
def customization_pattern : RPat :=
  [[.lit "can you"], [.lit "could you"], [.lit "please"], [.lit "make it"],
   [.lit "show me"]]

/-- Regex `step by step|detail|more|less|simpler|easier` for `specificity`. -/
def specificity_pattern : RPat :=
  [[.lit "step by step"], [.lit "detail"], [.lit "more"], [.lit "less"],
   [.lit "simpler"], [.lit "easier"]]

/-- Regex `combine|together|overall|summary|connection` for `integration`. -/
def integration_pattern : RPat :=
  [[.lit "combine"], [.lit "together"], [.lit "overall"], [.lit "summary"],
   [.lit "connection"]]

/-- Regex `compare|difference|similar|versus|vs` for `comparison`. -/
def comparison_pattern : RPat :=
  [[.lit "compare"], [.lit "difference"], [.lit "similar"], [.lit "versus"],
   [.lit "vs"]]

/-- Regex `book|lecture|professor|class|notes|textbook|source` for `external`. -/
def external_pattern : RPat :=
  [[.lit "book"], [.lit "lecture"], [.lit "professor"], [.lit "class"],
   [.lit "notes"], [.lit "textbook"], [.lit "source"]]

/-- Regex `thank|got it|understand now|learned|helpful|makes sense` for `learning`. -/
def learning_pattern : RPat :=
  [[.lit "thank"], [.lit "got it"], [.lit "understand now"], [.lit "learned"],
   [.lit "helpful"], [.lit "makes sense"]]

/-- Regex `let me try|i\x27ll|practice|attempt` for `practice`. -/
def practice_pattern : RPat :=
  [[.lit "let me try"], [.lit "i\x27ll"], [.lit "practice"], [.lit "attempt"]]

/-- Embedding of `analyze_conversation` (lines 56-169): returns `none` when
the conversation has no user message (Python `None`), otherwise the metrics
record after the final clamping loop. The `e2`/`e3` steps go through
`e2_assigned` / `e3_assigned_by_e2_branch` to mirror the dict writes of the
source, whose `critical_count > 2` branch writes `e3` instead of `e2` and is
then overwritten by the E3 step. -/
def analyze_conversation (messages : List Msg) : Option Metrics :=
  if user_messages messages = [] then none
  else some
    { p1 := clamp03 (if avg_len messages < 30 then 1
                     else if avg_len messages < 80 then 2 else 3)
      p2 := clamp03 (if question_count messages = 0 then 1
                     else if question_count messages ≤ 2 then 2 else 3)
      p3 := clamp03 (1
              + (if (user_messages messages).any (fun m => decide (100 < m.text.length)) then 1 else 0)
              + (if reSearch specifics_pattern false (all_user_text messages) then 1 else 0))
      p4 := clamp03 (if reSearch multi_part_pattern false (all_user_text messages)
                        ∧ 2 < (user_messages messages).length - 1 then 3
                     else if reSearch multi_part_pattern false (all_user_text messages)
                        ∨ 1 < (user_messages messages).length - 1 then 2
                     else 1)
      m1 := clamp03 (if modification_count messages = 0 then
                       (if (user_messages messages).length ≤ 1 then 0 else 1)
                     else if modification_count messages ≤ 2 then 2 else 3)
      m2 := clamp03 (1
              + (if reSearch customization_pattern false (all_user_text messages) then 1 else 0)
              + (if reSearch specificity_pattern false (all_user_text messages) then 1 else 0))
      m3 := clamp03 (1
              + (if reSearch integration_pattern false (all_user_text messages) then 1 else 0)
              + (if reSearch comparison_pattern false (all_user_text messages) then 1 else 0))
      e1 := clamp03 (if verification_count messages = 0 then 0
                     else if verification_count messages = 1 then 1
                     else if verification_count messages ≤ 3 then 2 else 3)
      e2 := clamp03 (min ((e2_assigned messages).getD 1) 3)
      e3 := clamp03 (if reSearch external_pattern false (all_user_text messages) then 2 else 1)
      r1 := clamp03 (if reflection_count messages = 0 then 1
                     else if reflection_count messages ≤ 2 then 2 else 3)
      r2 := clamp03 (1
              + (if reSearch learning_pattern false (all_user_text messages) then 1 else 0)
              + (if reSearch practice_pattern false (all_user_text messages) then 1 else 0)) }

/-- Rule chain of `classify_pattern` in `convert_conversation_to_metrics.py`
(lines 172-217); note the thresholds and confidences differ from the
`aligned_dimension_scorer.py` chain. -/
def classify_pattern (metrics : ScoreVec) : String × ℚ :=
  if totalScore metrics ≤ 15 ∧ e_avg metrics < 1.5 ∧ p_avg metrics < 2 then ("F", 0.85)
  else if 28 ≤ totalScore metrics ∧ 2.5 ≤ e_avg metrics ∧ 2.5 ≤ p_avg metrics then ("A", 0.85)
  else if 2.5 ≤ p_avg metrics ∧ 2 ≤ m_avg metrics ∧ r_avg metrics < 2 then ("B", 0.75)
  else if 2.5 ≤ m_avg metrics ∧ 22 ≤ totalScore metrics then ("D", 0.80)
  else if 2.5 ≤ r_avg metrics ∧ 2 ≤ p_avg metrics then ("E", 0.75)
  else if 18 ≤ totalScore metrics then ("C", 0.70)
  else ("C", 0.50)

end ConvertConversationToMetrics

example : AlignedDimensionScorer.score_p1_task_understanding [] = 0 := by decide

example :
    AlignedDimensionScorer.classify_pattern ⟨0, 0, 0, 0, 0, 0, 0, 0, 0, 0, 0, 0⟩ = ("F", 0.9) := by
  norm_num [AlignedDimensionScorer.classify_pattern, totalScore]

example :
    AlignedDimensionScorer.classify_pattern ⟨0, 0, 0, 0, 0, 0, 0, 2, 0, 0, 0, 0⟩ = ("C", 0.7) := by
  norm_num [AlignedDimensionScorer.classify_pattern, totalScore, p_avg, m_avg, e_avg, r_avg]

example :
    ConvertConversationToMetrics.classify_pattern ⟨0, 0, 0, 0, 0, 0, 0, 0, 0, 0, 0, 0⟩ =
      ("F", 0.85) := by
  norm_num [ConvertConversationToMetrics.classify_pattern, totalScore, p_avg, e_avg]

example :
    AlignedDimensionScorer.score_m1_process_tracking (List.replicate 20 "完成了") = 2 := by decide

example :
    AlignedDimensionScorer.score_m1_process_tracking (List.replicate 21 "完成了") = 3 := by decide

/-- A score vector is valid when each of its 12 entries is one of the four
rubric levels 0, 1, 2, 3. -/
def validScore (s : ScoreVec) : Prop :=
  s.P1 ∈ ({0, 1, 2, 3} : Set ℚ) ∧ s.P2 ∈ ({0, 1, 2, 3} : Set ℚ) ∧
  s.P3 ∈ ({0, 1, 2, 3} : Set ℚ) ∧ s.P4 ∈ ({0, 1, 2, 3} : Set ℚ) ∧
  s.M1 ∈ ({0, 1, 2, 3} : Set ℚ) ∧ s.M2 ∈ ({0, 1, 2, 3} : Set ℚ) ∧
  s.M3 ∈ ({0, 1, 2, 3} : Set ℚ) ∧ s.E1 ∈ ({0, 1, 2, 3} : Set ℚ) ∧
  s.E2 ∈ ({0, 1, 2, 3} : Set ℚ) ∧ s.E3 ∈ ({0, 1, 2, 3} : Set ℚ) ∧
  s.R1 ∈ ({0, 1, 2, 3} : Set ℚ) ∧ s.R2 ∈ ({0, 1, 2, 3} : Set ℚ)

open AlignedDimensionScorer in
/-- C1: for the empty human-message list every one of the 12 dimension
scorers returns 0, the total is 0, and `score_user` classifies the all-zero
vector as pattern `F` with the canonical confidence `0.9`. -/
theorem claim_C1_empty_message_list :
    score_p1_task_understanding [] = 0 ∧ score_p2_goal_setting [] = 0 ∧
    score_p3_strategy_planning [] = 0 ∧ score_p4_role_definition [] = 0 ∧
    score_m1_process_tracking [] = 0 ∧ score_m2_quality_checking [] = 0 ∧
    score_m3_trust_calibration [] = 0 ∧ score_e1_quality_evaluation [] = 0 ∧
    score_e2_risk_assessment [] = 0 ∧ score_e3_capability_judgment [] = 0 ∧
    score_r1_strategy_adjustment [] = 0 ∧ score_r2_tool_switching [] = 0 ∧
    score_user [] =
      { scores := ⟨0, 0, 0, 0, 0, 0, 0, 0, 0, 0, 0, 0⟩, pattern := "F",
        confidence := 0.9, total_score := 0 } := by
  have hs : scoresOf [] = ⟨0, 0, 0, 0, 0, 0, 0, 0, 0, 0, 0, 0⟩ := by
    simp [scoresOf, score_p1_task_understanding, score_p2_goal_setting,
      score_p3_strategy_planning, score_p4_role_definition,
      score_m1_process_tracking, score_m2_quality_checking,
      score_m3_trust_calibration, score_e1_quality_evaluation,
      score_e2_risk_assessment, score_e3_capability_judgment,
      score_r1_strategy_adjustment, score_r2_tool_switching]
  have hc : classify_pattern ⟨0, 0, 0, 0, 0, 0, 0, 0, 0, 0, 0, 0⟩ = ("F", 0.9) := by
    norm_num [classify_pattern, totalScore]
  refine ⟨by decide, by decide, by decide, by decide, by decide, by decide,
    by decide, by decide, by decide, by decide, by decide, by decide, ?_⟩
  simp [score_user, hs, hc, totalScore]

open AlignedDimensionScorer in
/-- C2: any score vector satisfying the F-rule condition of
`aligned_dimension_scorer.classify_pattern` (`total <= 15 and E1 <= 1`) is
classified `("F", 0.9)`, whatever later rules would also match: the rules
are tried in order and the first satisfied rule wins. -/
theorem claim_C2_F_rule_first_match_wins (s : ScoreVec)
    (h1 : totalScore s ≤ 15) (h2 : s.E1 ≤ 1) :
    classify_pattern s = ("F", 0.9) := by
  unfold classify_pattern
  rw [if_pos ⟨h1, h2⟩]

open AlignedDimensionScorer in
/-- Witness for C2 at a concrete vector that also satisfies the later B rule
(`m_avg >= 2`): the result is still `("F", 0.9)`. -/
theorem claim_C2_F_rule_first_match_wins_witness :
    (totalScore ⟨0, 0, 0, 0, 3, 3, 3, 0, 0, 0, 0, 0⟩ ≤ 15 ∧
     (⟨0, 0, 0, 0, 3, 3, 3, 0, 0, 0, 0, 0⟩ : ScoreVec).E1 ≤ 1 ∧
     2 ≤ m_avg ⟨0, 0, 0, 0, 3, 3, 3, 0, 0, 0, 0, 0⟩) ∧
    classify_pattern ⟨0, 0, 0, 0, 3, 3, 3, 0, 0, 0, 0, 0⟩ = ("F", 0.9) :=
  ⟨⟨by norm_num [totalScore], by norm_num, by norm_num [m_avg]⟩,
   claim_C2_F_rule_first_match_wins _ (by norm_num [totalScore]) (by norm_num)⟩

open AlignedDimensionScorer in
/-- Counterexample to C3 as stated: the vector with `E1 = 2` and all other
scores 0 has `total = 2 <= 15` and `e_avg = 2/3 <= 1`, yet the classifier
returns `("C", 0.7)`, not `F`, because the implemented F rule tests the
single slot `E1 <= 1`, not `e_avg <= 1`. -/
theorem claim_C3_counterexample :
    totalScore ⟨0, 0, 0, 0, 0, 0, 0, 2, 0, 0, 0, 0⟩ ≤ 15 ∧
    e_avg ⟨0, 0, 0, 0, 0, 0, 0, 2, 0, 0, 0, 0⟩ ≤ 1 ∧
    classify_pattern ⟨0, 0, 0, 0, 0, 0, 0, 2, 0, 0, 0, 0⟩ = ("C", 0.7) :=
  ⟨by norm_num [totalScore], by norm_num [e_avg],
   by norm_num [classify_pattern, totalScore, p_avg, m_avg, e_avg, r_avg]⟩

open AlignedDimensionScorer in
/-- C3 amended: the first-checked rule of
`aligned_dimension_scorer.classify_pattern` returns `("F", 0.9)` exactly when
`total <= 15` and `E1 <= 1` (the lone E1 slot, not `e_avg`); whenever that
condition fails the result is not `F`. -/
theorem claim_C3_F_rule_characterization (s : ScoreVec) :
    (totalScore s ≤ 15 ∧ s.E1 ≤ 1 → classify_pattern s = ("F", 0.9)) ∧
    (¬(totalScore s ≤ 15 ∧ s.E1 ≤ 1) → (classify_pattern s).1 ≠ "F") := by
  constructor
  · intro hc
    unfold classify_pattern
    rw [if_pos hc]
  · intro hc
    unfold classify_pattern
    rw [if_neg hc]
    split_ifs <;> simp

open AlignedDimensionScorer in
/-- Witness for C3 amended at two concrete vectors: the all-zero vector
satisfies the condition and is classified `("F", 0.9)`; the all-three vector
fails it and is not classified `F`. -/
theorem claim_C3_F_rule_characterization_witness :
    classify_pattern ⟨0, 0, 0, 0, 0, 0, 0, 0, 0, 0, 0, 0⟩ = ("F", 0.9) ∧
    (classify_pattern ⟨3, 3, 3, 3, 3, 3, 3, 3, 3, 3, 3, 3⟩).1 ≠ "F" :=
  ⟨(claim_C3_F_rule_characterization _).1 ⟨by norm_num [totalScore], by norm_num⟩,
   (claim_C3_F_rule_characterization _).2 (by norm_num [totalScore])⟩

open AlignedDimensionScorer in
/-- C5: a score vector not classified `F` with `p_avg >= 2.5` and
`e_avg >= 2` is classified `("A", 0.85)`: the A rule fires before the D rule
is ever examined. -/
theorem claim_C5_A_rule_before_D (s : ScoreVec)
    (hF : (classify_pattern s).1 ≠ "F") (hp : 2.5 ≤ p_avg s) (he : 2 ≤ e_avg s) :
    classify_pattern s = ("A", 0.85) := by
  by_cases hc : totalScore s ≤ 15 ∧ s.E1 ≤ 1
  · have hFc : classify_pattern s = ("F", 0.9) := by
      unfold classify_pattern
      rw [if_pos hc]
    rw [hFc] at hF
    simp at hF
  · unfold classify_pattern
    rw [if_neg hc, if_pos ⟨hp, he⟩]

open AlignedDimensionScorer in
/-- Witness for C5: the vector with `p_avg = 3` and `e_avg = 2.5` also
satisfies the D condition `e_avg >= 2.5` but is classified `("A", 0.85)`. -/
theorem claim_C5_A_rule_before_D_witness :
    p_avg ⟨3, 3, 3, 3, 0, 0, 0, 2.5, 2.5, 2.5, 0, 0⟩ = 3 ∧
    e_avg ⟨3, 3, 3, 3, 0, 0, 0, 2.5, 2.5, 2.5, 0, 0⟩ = 2.5 ∧
    2.5 ≤ e_avg ⟨3, 3, 3, 3, 0, 0, 0, 2.5, 2.5, 2.5, 0, 0⟩ ∧
    classify_pattern ⟨3, 3, 3, 3, 0, 0, 0, 2.5, 2.5, 2.5, 0, 0⟩ = ("A", 0.85) := by
  have hcl : classify_pattern ⟨3, 3, 3, 3, 0, 0, 0, 2.5, 2.5, 2.5, 0, 0⟩ = ("A", 0.85) := by
    norm_num [classify_pattern, totalScore, p_avg, e_avg]
  refine ⟨by norm_num [p_avg], by norm_num [e_avg], by norm_num [e_avg], ?_⟩
  exact claim_C5_A_rule_before_D _ (by rw [hcl]; simp) (by norm_num [p_avg]) (by norm_num [e_avg])

/-- C9: the two `classify_pattern` implementations are not equivalent: on the
valid all-zero score vector (every entry is the rubric level 0) the aligned
classifier returns `("F", 0.9)` while the conversion-script classifier
returns `("F", 0.85)`, so the (pattern, confidence) pairs differ. -/
theorem claim_C9_classifiers_diverge :
    validScore ⟨0, 0, 0, 0, 0, 0, 0, 0, 0, 0, 0, 0⟩ ∧
    AlignedDimensionScorer.classify_pattern ⟨0, 0, 0, 0, 0, 0, 0, 0, 0, 0, 0, 0⟩ = ("F", 0.9) ∧
    ConvertConversationToMetrics.classify_pattern ⟨0, 0, 0, 0, 0, 0, 0, 0, 0, 0, 0, 0⟩ =
      ("F", 0.85) ∧
    AlignedDimensionScorer.classify_pattern ⟨0, 0, 0, 0, 0, 0, 0, 0, 0, 0, 0, 0⟩ ≠
      ConvertConversationToMetrics.classify_pattern ⟨0, 0, 0, 0, 0, 0, 0, 0, 0, 0, 0, 0⟩ := by
  have h1 : AlignedDimensionScorer.classify_pattern ⟨0, 0, 0, 0, 0, 0, 0, 0, 0, 0, 0, 0⟩ =
      ("F", 0.9) := by
    norm_num [AlignedDimensionScorer.classify_pattern, totalScore]
  have h2 : ConvertConversationToMetrics.classify_pattern ⟨0, 0, 0, 0, 0, 0, 0, 0, 0, 0, 0, 0⟩ =
      ("F", 0.85) := by
    norm_num [ConvertConversationToMetrics.classify_pattern, totalScore, e_avg, p_avg]
  refine ⟨?_, h1, h2, ?_⟩
  · simp [validScore]
  · rw [h1, h2]
    norm_num

namespace AlignedDimensionScorer

/-- Every branch of P1 returns a rubric level. -/
theorem score_p1_le_three (msgs : List String) : score_p1_task_understanding msgs ≤ 3 := by
  unfold score_p1_task_understanding
  split_ifs <;> omega

/-- Every branch of P2 returns a rubric level. -/
theorem score_p2_le_three (msgs : List String) : score_p2_goal_setting msgs ≤ 3 := by
  unfold score_p2_goal_setting
  split_ifs <;> omega

/-- Every branch of P3 returns a rubric level. -/
theorem score_p3_le_three (msgs : List String) : score_p3_strategy_planning msgs ≤ 3 := by
  unfold score_p3_strategy_planning
  split_ifs <;> omega

/-- Every branch of P4 returns a rubric level. -/
theorem score_p4_le_three (msgs : List String) : score_p4_role_definition msgs ≤ 3 := by
  unfold score_p4_role_definition
  split_ifs <;> omega

/-- Every branch of M1 returns a rubric level. -/
theorem score_m1_le_three (msgs : List String) : score_m1_process_tracking msgs ≤ 3 := by
  unfold score_m1_process_tracking
  split_ifs <;> omega

/-- Every branch of M2 returns a rubric level. -/
theorem score_m2_le_three (msgs : List String) : score_m2_quality_checking msgs ≤ 3 := by
  unfold score_m2_quality_checking
  split_ifs <;> omega

/-- Every branch of M3 returns a rubric level. -/
theorem score_m3_le_three (msgs : List String) : score_m3_trust_calibration msgs ≤ 3 := by
  unfold score_m3_trust_calibration
  split_ifs <;> omega

/-- Every branch of E1 returns a rubric level. -/
theorem score_e1_le_three (msgs : List String) : score_e1_quality_evaluation msgs ≤ 3 := by
  unfold score_e1_quality_evaluation
  split_ifs <;> omega

/-- Every branch of E2 returns a rubric level. -/
theorem score_e2_le_three (msgs : List String) : score_e2_risk_assessment msgs ≤ 3 := by
  unfold score_e2_risk_assessment
  split_ifs <;> omega

/-- Every branch of E3 returns a rubric level. -/
theorem score_e3_le_three (msgs : List String) : score_e3_capability_judgment msgs ≤ 3 := by
  unfold score_e3_capability_judgment
  split_ifs <;> omega

/-- Every branch of R1 returns a rubric level. -/
theorem score_r1_le_three (msgs : List String) : score_r1_strategy_adjustment msgs ≤ 3 := by
  unfold score_r1_strategy_adjustment
  split_ifs <;> omega

/-- Every branch of R2 returns a rubric level. -/
theorem score_r2_le_three (msgs : List String) : score_r2_tool_switching msgs ≤ 3 := by
  unfold score_r2_tool_switching
  split_ifs <;> omega

/-- The classifier only ever returns one of the four confidence constants. -/
theorem classify_confidence_cases (s : ScoreVec) :
    (classify_pattern s).2 = 0.9 ∨ (classify_pattern s).2 = 0.85 ∨
    (classify_pattern s).2 = 0.8 ∨ (classify_pattern s).2 = 0.7 := by
  unfold classify_pattern
  split_ifs <;> simp

end AlignedDimensionScorer

/-- A natural number at most 3, cast to `ℚ`, is one of the rubric levels. -/
theorem natCast_mem_levels (n : ℕ) (h : n ≤ 3) : (n : ℚ) ∈ ({0, 1, 2, 3} : Set ℚ) := by
  interval_cases n <;> simp

open AlignedDimensionScorer in
/-- C4: for every input message list, each of the 12 dimension scores of
`score_user` is in {0,1,2,3}, the total is in [0,36], and the confidence of
the classifier lies in (0,1]. -/
theorem claim_C4_score_total_confidence_ranges (user_msgs : List String) :
    validScore (score_user user_msgs).scores ∧
    0 ≤ (score_user user_msgs).total_score ∧ (score_user user_msgs).total_score ≤ 36 ∧
    0 < (score_user user_msgs).confidence ∧ (score_user user_msgs).confidence ≤ 1 := by
  refine ⟨?_, ?_, ?_, ?_, ?_⟩
  · exact ⟨natCast_mem_levels _ (score_p1_le_three user_msgs),
      natCast_mem_levels _ (score_p2_le_three user_msgs),
      natCast_mem_levels _ (score_p3_le_three user_msgs),
      natCast_mem_levels _ (score_p4_le_three user_msgs),
      natCast_mem_levels _ (score_m1_le_three user_msgs),
      natCast_mem_levels _ (score_m2_le_three user_msgs),
      natCast_mem_levels _ (score_m3_le_three user_msgs),
      natCast_mem_levels _ (score_e1_le_three user_msgs),
      natCast_mem_levels _ (score_e2_le_three user_msgs),
      natCast_mem_levels _ (score_e3_le_three user_msgs),
      natCast_mem_levels _ (score_r1_le_three user_msgs),
      natCast_mem_levels _ (score_r2_le_three user_msgs)⟩
  · simp only [score_user, totalScore, scoresOf]
    positivity
  · simp only [score_user, totalScore, scoresOf]
    have h1 := score_p1_le_three user_msgs
    have h2 := score_p2_le_three user_msgs
    have h3 := score_p3_le_three user_msgs
    have h4 := score_p4_le_three user_msgs
    have h5 := score_m1_le_three user_msgs
    have h6 := score_m2_le_three user_msgs
    have h7 := score_m3_le_three user_msgs
    have h8 := score_e1_le_three user_msgs
    have h9 := score_e2_le_three user_msgs
    have h10 := score_e3_le_three user_msgs
    have h11 := score_r1_le_three user_msgs
    have h12 := score_r2_le_three user_msgs
    have : ∀ n : ℕ, n ≤ 3 → (n : ℚ) ≤ 3 := fun n hn => by exact_mod_cast hn
    linarith [this _ h1, this _ h2, this _ h3, this _ h4, this _ h5, this _ h6,
      this _ h7, this _ h8, this _ h9, this _ h10, this _ h11, this _ h12]
  · rcases classify_confidence_cases (scoresOf user_msgs) with h | h | h | h <;>
      · simp only [score_user]
        rw [h]
        norm_num
  · rcases classify_confidence_cases (scoresOf user_msgs) with h | h | h | h <;>
      · simp only [score_user]
        rw [h]
        norm_num

open AlignedDimensionScorer in
/-- C8: `get_user_messages` returns exactly the texts of the records whose
sender is `user` and whose text is not empty or whitespace-only, in the
original order: it equals filtering those records and projecting their
texts, each kept text comes from such a record, and the output is a sublist
(order-preserving selection) of the record texts. -/
theorem claim_C8_get_user_messages_filter (messages : List Msg) :
    get_user_messages messages =
      (messages.filter (fun m => decide (m.sender = "user" ∧ trimChars m.text ≠ []))).map
        Msg.text ∧
    (∀ t : String, t ∈ get_user_messages messages ↔
      ∃ m ∈ messages, m.sender = "user" ∧ trimChars m.text ≠ [] ∧ m.text = t) ∧
    List.Sublist (get_user_messages messages) (messages.map Msg.text) := by
  have hf : get_user_messages messages =
      (messages.filter (fun m => decide (m.sender = "user" ∧ trimChars m.text ≠ []))).map
        Msg.text := by
    induction messages with
    | nil => rfl
    | cons m ms ih =>
        by_cases h : m.sender = "user" ∧ ¬trimChars m.text = []
        · simp [get_user_messages, List.filter_cons, h] at ih ⊢
          exact ih
        · simp [get_user_messages, List.filter_cons, h] at ih ⊢
          exact ih
  refine ⟨hf, ?_, ?_⟩
  · intro t
    rw [hf]
    simp only [List.mem_map, List.mem_filter, decide_eq_true_eq]
    constructor
    · rintro ⟨m, ⟨hm, hs, ht⟩, rfl⟩
      exact ⟨m, hm, hs, ht, rfl⟩
    · rintro ⟨m, hm, hs, ht, rfl⟩
      exact ⟨m, ⟨hm, hs, ht⟩, rfl⟩
  · rw [hf]
    exact (List.filter_sublist _).map _

open ConvertConversationToMetrics in
/-- C10: for every conversation with at least one user message, the `e2`
returned by `analyze_conversation` is 1 or 2 and never 3: a critical-keyword
count of 0 gives `e2 = 1`, a count of 1 or 2 gives `e2 = 2`, and a count
above 2 writes 3 into the `e3` slot instead (later overwritten by the E3
step), leaving `e2` at its default 1. -/
theorem claim_C10_e2_never_three (messages : List Msg)
    (h : user_messages messages ≠ []) :
    ∃ mt : Metrics, analyze_conversation messages = some mt ∧
      (mt.e2 = 1 ∨ mt.e2 = 2) ∧ mt.e2 ≠ 3 ∧
      (critical_count messages = 0 → mt.e2 = 1) ∧
      (1 ≤ critical_count messages → critical_count messages ≤ 2 → mt.e2 = 2) ∧
      (2 < critical_count messages →
        mt.e2 = 1 ∧ e3_assigned_by_e2_branch messages = some 3) := by
  unfold analyze_conversation
  rw [if_neg h]
  refine ⟨_, rfl, ?_, ?_, ?_, ?_, ?_⟩
  · by_cases h0 : critical_count messages = 0
    · left
      simp [e2_assigned, h0, clamp03]
    · by_cases h2 : critical_count messages ≤ 2
      · right
        simp [e2_assigned, h0, h2, clamp03]
      · left
        simp [e2_assigned, h0, h2, clamp03]
  · by_cases h0 : critical_count messages = 0
    · simp [e2_assigned, h0, clamp03]
    · by_cases h2 : critical_count messages ≤ 2
      · simp [e2_assigned, h0, h2, clamp03]
      · simp [e2_assigned, h0, h2, clamp03]
  · intro h0
    simp [e2_assigned, h0, clamp03]
  · intro h1 h2
    have h0 : critical_count messages ≠ 0 := by omega
    simp [e2_assigned, h0, h2, clamp03]
  · intro h3
    have h0 : critical_count messages ≠ 0 := by omega
    have h2 : ¬critical_count messages ≤ 2 := by omega
    exact ⟨by simp [e2_assigned, h0, h2, clamp03],
      by simp [e3_assigned_by_e2_branch, h0, h2]⟩

open ConvertConversationToMetrics in
/-- Witness for C10 at a one-message conversation whose text contains four
critical keywords (`but`, `however`, `actually`, `wait`), so the
`critical_count > 2` branch is exercised. -/
theorem claim_C10_e2_never_three_witness :
    user_messages [⟨"user", "but however actually wait"⟩] ≠ [] ∧
    (∃ mt : Metrics,
      analyze_conversation [⟨"user", "but however actually wait"⟩] = some mt ∧
      (mt.e2 = 1 ∨ mt.e2 = 2) ∧ mt.e2 ≠ 3 ∧
      (critical_count [⟨"user", "but however actually wait"⟩] = 0 → mt.e2 = 1) ∧
      (1 ≤ critical_count [⟨"user", "but however actually wait"⟩] →
        critical_count [⟨"user", "but however actually wait"⟩] ≤ 2 → mt.e2 = 2) ∧
      (2 < critical_count [⟨"user", "but however actually wait"⟩] →
        mt.e2 = 1 ∧ e3_assigned_by_e2_branch [⟨"user", "but however actually wait"⟩] =
          some 3)) :=
  ⟨by decide, claim_C10_e2_never_three _ (by decide)⟩

/-- The executable substring test agrees with `List.IsInfix`. -/
theorem listInfix_iff (l₁ l₂ : List Char) : listInfix l₁ l₂ = true ↔ l₁ <:+: l₂ := by
  induction l₂ with
  | nil =>
      simp [listInfix, List.isEmpty_iff, List.infix_nil]
  | cons a t ih =>
      simp only [listInfix, Bool.or_eq_true, List.isPrefixOf_iff_prefix, ih,
        List.infix_cons_iff]

/-- A list has at least as many `f`-weight as elements satisfying `p`, when
every element satisfying `p` has weight at least 1. -/
theorem countP_le_sum_map {α : Type} (l : List α) (p : α → Bool) (f : α → ℕ)
    (h : ∀ a, p a = true → 1 ≤ f a) : l.countP p ≤ (l.map f).sum := by
  induction l with
  | nil => simp
  | cons a t ih =>
      rw [List.countP_cons, List.map_cons, List.sum_cons]
      by_cases hp : p a = true
      · have := h a hp
        simp only [hp, if_true]
        omega
      · rw [Bool.not_eq_true] at hp
        simp only [hp, Bool.false_eq_true, if_false]
        omega

open AlignedDimensionScorer in
/-- A message containing the string `完成了` contains the progress keyword
`完成`, so it contributes at least 1 to `progress_mentions`. -/
theorem kwHits_progress_of_wanchengle (m : String)
    (hm : containsCI "完成了" m = true) : 1 ≤ kwHits progress_keywords m := by
  have h137 : (strLower "完成了").toList = ['完', '成', '了'] := by decide
  have h13 : (strLower "完成").toList = ['完', '成'] := by decide
  have h1 : (['完', '成', '了'] : List Char) <:+: (strLower m).toList := by
    rw [← h137]
    exact (listInfix_iff _ _).mp (by simpa [containsCI, h137] using hm)
  have h2 : (['完', '成'] : List Char) <:+: (strLower m).toList :=
    (List.IsPrefix.isInfix ⟨['了'], rfl⟩).trans h1
  have h3 : containsCI "完成" m = true := by
    rw [containsCI, h13]
    exact (listInfix_iff _ _).mpr h2
  have h4 : "完成" ∈ progress_keywords.filter (fun kw => containsCI kw m) :=
    List.mem_filter.mpr ⟨by decide, h3⟩
  have h5 : 0 < (progress_keywords.filter (fun kw => containsCI kw m)).length :=
    List.length_pos.mpr (List.ne_nil_of_mem h4)
  simpa [kwHits] using h5

open AlignedDimensionScorer in
/-- Counterexample to C7 as stated: a list of exactly twenty messages, each
equal to `完成了` (so the phrase occurs twenty times, more than 3), has
message count 20, which is not greater than 20, and the process-tracking
scorer returns M1 = 2, not 3. -/
theorem claim_C7_counterexample :
    (List.replicate 20 "完成了").length = 20 ∧
    3 < (List.replicate 20 "完成了").countP (fun m => containsCI "完成了" m) ∧
    score_m1_process_tracking (List.replicate 20 "完成了") = 2 :=
  ⟨by decide, by decide, by decide⟩

open AlignedDimensionScorer in
/-- C7 amended: a human-message list with message count greater than 20 in
which more than 3 of the messages contain `完成了` is scored M1 = 3 by the
process-tracking scorer (the source condition `msg_count > 20 and
progress_mentions > 3` requires strictly more than twenty messages). -/
theorem claim_C7_m1_three_above_twenty (msgs : List String)
    (hlen : 20 < msgs.length)
    (hcount : 3 < msgs.countP (fun m => containsCI "完成了" m)) :
    score_m1_process_tracking msgs = 3 := by
  have hne : msgs ≠ [] := by
    intro h
    rw [h] at hlen
    simp at hlen
  have hprog : 3 < countKW progress_keywords msgs := by
    have := countP_le_sum_map msgs (fun m => containsCI "完成了" m)
      (kwHits progress_keywords) (fun a ha => kwHits_progress_of_wanchengle a ha)
    rw [countKW]
    omega
  unfold score_m1_process_tracking
  rw [if_neg hne, if_pos (Or.inr ⟨hlen, hprog⟩)]

open AlignedDimensionScorer in
/-- Witness for C7 amended: twenty-one messages, each `完成了`. -/
theorem claim_C7_m1_three_above_twenty_witness :
    20 < (List.replicate 21 "完成了").length ∧
    3 < (List.replicate 21 "完成了").countP (fun m => containsCI "完成了" m) ∧
    score_m1_process_tracking (List.replicate 21 "完成了") = 3 :=
  ⟨by decide, by decide, claim_C7_m1_three_above_twenty _ (by decide) (by decide)⟩

/-- Keyword counts split over list concatenation. -/
theorem countKW_append (kws : List String) (xs ys : List String) :
    countKW kws (xs ++ ys) = countKW kws xs + countKW kws ys := by
  simp [countKW]

/-- Pattern counts split over list concatenation. -/
theorem countPat_append (pats : List RPat) (ic : Bool) (xs ys : List String) :
    countPat pats ic (xs ++ ys) = countPat pats ic xs + countPat pats ic ys := by
  simp [countPat]

namespace AlignedDimensionScorer

/-- Appending messages never decreases P2. -/
theorem score_p2_mono_append (xs ys : List String) :
    score_p2_goal_setting xs ≤ score_p2_goal_setting (xs ++ ys) := by
  by_cases hx : xs = []
  · have h0 : score_p2_goal_setting [] = 0 := by decide
    rw [hx, List.nil_append, h0]
    exact Nat.zero_le _
  · have hxy : xs ++ ys ≠ [] := fun h => hx (List.append_eq_nil.mp h).1
    unfold score_p2_goal_setting
    rw [if_neg hx, if_neg hxy, countKW_append, countPat_append]
    split_ifs <;> omega

/-- Appending messages never decreases P3. -/
theorem score_p3_mono_append (xs ys : List String) :
    score_p3_strategy_planning xs ≤ score_p3_strategy_planning (xs ++ ys) := by
  by_cases hx : xs = []
  · have h0 : score_p3_strategy_planning [] = 0 := by decide
    rw [hx, List.nil_append, h0]
    exact Nat.zero_le _
  · have hxy : xs ++ ys ≠ [] := fun h => hx (List.append_eq_nil.mp h).1
    unfold score_p3_strategy_planning
    rw [if_neg hx, if_neg hxy, countKW_append, countPat_append, countPat_append]
    split_ifs <;> omega

/-- Appending messages never decreases P4. -/
theorem score_p4_mono_append (xs ys : List String) :
    score_p4_role_definition xs ≤ score_p4_role_definition (xs ++ ys) := by
  by_cases hx : xs = []
  · have h0 : score_p4_role_definition [] = 0 := by decide
    rw [hx, List.nil_append, h0]
    exact Nat.zero_le _
  · have hxy : xs ++ ys ≠ [] := fun h => hx (List.append_eq_nil.mp h).1
    unfold score_p4_role_definition
    rw [if_neg hx, if_neg hxy, countKW_append, countKW_append, countPat_append]
    split_ifs <;> omega

/-- Appending messages never decreases M1. -/
theorem score_m1_mono_append (xs ys : List String) :
    score_m1_process_tracking xs ≤ score_m1_process_tracking (xs ++ ys) := by
  by_cases hx : xs = []
  · have h0 : score_m1_process_tracking [] = 0 := by decide
    rw [hx, List.nil_append, h0]
    exact Nat.zero_le _
  · have hxy : xs ++ ys ≠ [] := fun h => hx (List.append_eq_nil.mp h).1
    unfold score_m1_process_tracking
    rw [if_neg hx, if_neg hxy, countKW_append, countPat_append, List.length_append]
    split_ifs <;> omega

/-- Appending messages never decreases M2. -/
theorem score_m2_mono_append (xs ys : List String) :
    score_m2_quality_checking xs ≤ score_m2_quality_checking (xs ++ ys) := by
  by_cases hx : xs = []
  · have h0 : score_m2_quality_checking [] = 0 := by decide
    rw [hx, List.nil_append, h0]
    exact Nat.zero_le _
  · have hxy : xs ++ ys ≠ [] := fun h => hx (List.append_eq_nil.mp h).1
    unfold score_m2_quality_checking
    rw [if_neg hx, if_neg hxy, countKW_append, countPat_append]
    split_ifs <;> omega

/-- Appending messages never decreases M3. -/
theorem score_m3_mono_append (xs ys : List String) :
    score_m3_trust_calibration xs ≤ score_m3_trust_calibration (xs ++ ys) := by
  by_cases hx : xs = []
  · have h0 : score_m3_trust_calibration [] = 0 := by decide
    rw [hx, List.nil_append, h0]
    exact Nat.zero_le _
  · have hxy : xs ++ ys ≠ [] := fun h => hx (List.append_eq_nil.mp h).1
    unfold score_m3_trust_calibration
    rw [if_neg hx, if_neg hxy, countKW_append, countPat_append, countPat_append]
    split_ifs <;> omega

/-- Appending messages never decreases E1. -/
theorem score_e1_mono_append (xs ys : List String) :
    score_e1_quality_evaluation xs ≤ score_e1_quality_evaluation (xs ++ ys) := by
  by_cases hx : xs = []
  · have h0 : score_e1_quality_evaluation [] = 0 := by decide
    rw [hx, List.nil_append, h0]
    exact Nat.zero_le _
  · have hxy : xs ++ ys ≠ [] := fun h => hx (List.append_eq_nil.mp h).1
    unfold score_e1_quality_evaluation
    rw [if_neg hx, if_neg hxy, countKW_append, countPat_append, countPat_append]
    split_ifs <;> omega

/-- Appending messages never decreases E2. -/
theorem score_e2_mono_append (xs ys : List String) :
    score_e2_risk_assessment xs ≤ score_e2_risk_assessment (xs ++ ys) := by
  by_cases hx : xs = []
  · have h0 : score_e2_risk_assessment [] = 0 := by decide
    rw [hx, List.nil_append, h0]
    exact Nat.zero_le _
  · have hxy : xs ++ ys ≠ [] := fun h => hx (List.append_eq_nil.mp h).1
    unfold score_e2_risk_assessment
    rw [if_neg hx, if_neg hxy, countKW_append, countPat_append]
    split_ifs <;> omega

/-- Appending messages never decreases E3. -/
theorem score_e3_mono_append (xs ys : List String) :
    score_e3_capability_judgment xs ≤ score_e3_capability_judgment (xs ++ ys) := by
  by_cases hx : xs = []
  · have h0 : score_e3_capability_judgment [] = 0 := by decide
    rw [hx, List.nil_append, h0]
    exact Nat.zero_le _
  · have hxy : xs ++ ys ≠ [] := fun h => hx (List.append_eq_nil.mp h).1
    unfold score_e3_capability_judgment
    rw [if_neg hx, if_neg hxy, countKW_append, countPat_append]
    split_ifs <;> omega

/-- Appending messages never decreases R1. -/
theorem score_r1_mono_append (xs ys : List String) :
    score_r1_strategy_adjustment xs ≤ score_r1_strategy_adjustment (xs ++ ys) := by
  by_cases hx : xs = []
  · have h0 : score_r1_strategy_adjustment [] = 0 := by decide
    rw [hx, List.nil_append, h0]
    exact Nat.zero_le _
  · have hxy : xs ++ ys ≠ [] := fun h => hx (List.append_eq_nil.mp h).1
    unfold score_r1_strategy_adjustment
    rw [if_neg hx, if_neg hxy, countKW_append, countPat_append]
    split_ifs <;> omega

/-- Appending messages never decreases R2. -/
theorem score_r2_mono_append (xs ys : List String) :
    score_r2_tool_switching xs ≤ score_r2_tool_switching (xs ++ ys) := by
  by_cases hx : xs = []
  · have h0 : score_r2_tool_switching [] = 0 := by decide
    rw [hx, List.nil_append, h0]
    exact Nat.zero_le _
  · have hxy : xs ++ ys ≠ [] := fun h => hx (List.append_eq_nil.mp h).1
    unfold score_r2_tool_switching
    rw [if_neg hx, if_neg hxy, countKW_append, countPat_append]
    split_ifs <;> omega

end AlignedDimensionScorer

open AlignedDimensionScorer in
/-- A 160-character task description containing six of P1's understanding
keywords (需要, 目标, 要求, 约束, 条件, 背景). -/
def longTaskMsg : String :=
  "需要目标要求约束条件背景" ++ String.mk (List.replicate 148 '喵')

open AlignedDimensionScorer in
/-- Counterexample to C6 as stated: `需要` is a P1 trigger keyword, yet
appending the message `"需要"` (which contains it) to a list scored P1 = 3
drops the average message length from 160 to 81 and the P1 score to 2. -/
theorem claim_C6_counterexample :
    "需要" ∈ understanding_keywords ∧
    containsCI "需要" "需要" = true ∧
    score_p1_task_understanding [longTaskMsg] = 3 ∧
    score_p1_task_understanding ([longTaskMsg] ++ ["需要"]) = 2 := by
  have hk1 : countKW understanding_keywords [longTaskMsg] = 6 := by decide
  have hs1 : ([longTaskMsg].map String.length).sum = 160 := by decide
  have hl1 : ([longTaskMsg] : List String).length = 1 := by decide
  have havg1 : avg_len [longTaskMsg] = 160 := by
    rw [avg_len, hs1, hl1]
    norm_num
  have hk2 : countKW understanding_keywords [longTaskMsg, "需要"] = 7 := by decide
  have hs2 : (([longTaskMsg, "需要"] : List String).map String.length).sum = 162 := by decide
  have hl2 : ([longTaskMsg, "需要"] : List String).length = 2 := by decide
  have havg2 : avg_len [longTaskMsg, "需要"] = 81 := by
    rw [avg_len, hs2, hl2]
    norm_num
  refine ⟨by decide, by decide, ?_, ?_⟩
  · unfold score_p1_task_understanding
    rw [if_neg (show ¬([longTaskMsg] : List String) = [] by simp),
      if_pos ⟨by rw [havg1]; norm_num, Or.inl (by rw [hk1]; norm_num)⟩]
  · rw [show [longTaskMsg] ++ ["需要"] = [longTaskMsg, "需要"] from rfl]
    unfold score_p1_task_understanding
    rw [if_neg (show ¬([longTaskMsg, "需要"] : List String) = [] by simp)]
    rw [if_neg (show ¬(150 < avg_len [longTaskMsg, "需要"] ∧
        (5 < countKW understanding_keywords [longTaskMsg, "需要"] ∨
         2 < countPat detailed_patterns true [longTaskMsg, "需要"])) by
      rw [havg2]
      rintro ⟨h, -⟩
      norm_num at h)]
    rw [if_pos ⟨by rw [havg2]; norm_num, Or.inl (by rw [hk2]; norm_num)⟩]

open AlignedDimensionScorer in
/-- C6 amended: for each of the eleven dimension scorers other than P1,
appending further messages (with or without trigger keywords) never
decreases the dimension score; P1 is excluded because its score also
depends on the average message length and can drop (see the
counterexample). -/
theorem claim_C6_trigger_monotonicity (xs ys : List String) :
    score_p2_goal_setting xs ≤ score_p2_goal_setting (xs ++ ys) ∧
    score_p3_strategy_planning xs ≤ score_p3_strategy_planning (xs ++ ys) ∧
    score_p4_role_definition xs ≤ score_p4_role_definition (xs ++ ys) ∧
    score_m1_process_tracking xs ≤ score_m1_process_tracking (xs ++ ys) ∧
    score_m2_quality_checking xs ≤ score_m2_quality_checking (xs ++ ys) ∧
    score_m3_trust_calibration xs ≤ score_m3_trust_calibration (xs ++ ys) ∧
    score_e1_quality_evaluation xs ≤ score_e1_quality_evaluation (xs ++ ys) ∧
    score_e2_risk_assessment xs ≤ score_e2_risk_assessment (xs ++ ys) ∧
    score_e3_capability_judgment xs ≤ score_e3_capability_judgment (xs ++ ys) ∧
    score_r1_strategy_adjustment xs ≤ score_r1_strategy_adjustment (xs ++ ys) ∧
    score_r2_tool_switching xs ≤ score_r2_tool_switching (xs ++ ys) :=
  ⟨score_p2_mono_append xs ys, score_p3_mono_append xs ys, score_p4_mono_append xs ys,
   score_m1_mono_append xs ys, score_m2_mono_append xs ys, score_m3_mono_append xs ys,
   score_e1_mono_append xs ys, score_e2_mono_append xs ys, score_e3_mono_append xs ys,
   score_r1_mono_append xs ys, score_r2_mono_append xs ys⟩
